import Mathlib

/-!
Verification of the NAS command-line option module
(openair3/NAS/UE/nas_parser.c).

The development shallowly embeds the option table, the typed accessors and
the hexadecimal conversion routine atohex.  C strings (char pointers) are
modelled as `Option (List Char)`: `none` is the null pointer, `some s` a
non-null NUL-terminated string whose characters before the terminator are
`s`.  The C `int` accumulator of atohex is modelled as its 32-bit
two's-complement bit pattern, a natural number below 2^32, reinterpreted as
a signed value at the end.
-/

/-- Modulus of 32-bit machine integers: the accumulator of atohex is a C
`int`, whose wraparound is arithmetic modulo 2^32 on the bit pattern. -/
def uint32Mod : Nat := 4294967296

/-- Reinterpret a 32-bit bit pattern (a natural number below 2^32) as a
signed two's-complement value, the value a C `int` returns. -/
def toInt32 (n : Nat) : Int :=
  if n < 2147483648 then (n : Int) else (n : Int) - 4294967296

/-- One iteration of the atohex loop body (nas_parser.c lines 328-336):
the three range tests on the current character and, on success, the new
accumulator `(result << 4) + digit` in 32-bit arithmetic.  `none` means the
`break` branch was taken. -/
def atohexStep (result : Nat) (c : Char) : Option Nat :=
  if '0' ≤ c ∧ c ≤ '9' then
    some (((result <<< 4) + (c.toNat - '0'.toNat)) % uint32Mod)
  else if 'A' ≤ c ∧ c ≤ 'F' then
    some (((result <<< 4) + (c.toNat - 'A'.toNat + 10)) % uint32Mod)
  else if 'a' ≤ c ∧ c ≤ 'f' then
    some (((result <<< 4) + (c.toNat - 'a'.toNat + 10)) % uint32Mod)
  else
    none

/-- The atohex scanning loop on the characters before the NUL terminator.
Reaching the end of the list is reaching the terminator, which is not a hex
digit and therefore takes the `break` branch returning the accumulator. -/
def atohexLoop : Nat → List Char → Nat
  | result, [] => result
  | result, c :: rest =>
    match atohexStep result c with
    | some r => atohexLoop r rest
    | none => result

/-- The function atohex (nas_parser.c lines 323-340).  The `for` condition
is `a_char`, the pointer itself: a null pointer makes it false at once and
the initial accumulator 0 is returned; a non-null pointer runs the loop
until the first non-hex-digit character (at the latest the terminator). -/
def atohex : Option (List Char) → Int
  | none => 0
  | some s => toInt32 (atohexLoop 0 s)

/-- Dereference of the scanning pointer: reading through a null pointer is
the error case (undefined behavior in C); at the end of the list the NUL
terminator is read. -/
def derefChar : Option (List Char) → Except Unit Char
  | none => Except.error ()
  | some [] => Except.ok (Char.ofNat 0)
  | some (c :: _) => Except.ok c

/-- Pointer increment `a_char++`: a non-null pointer advances one
character and stays non-null. -/
def ptrIncr : Option (List Char) → Option (List Char)
  | none => none
  | some s => some s.tail

/-- Fuel-bounded operational model of the atohex `for` loop, making the
evaluation order of the source explicit: first the loop condition (the
pointer `a_char` tested against null, no dereference), then the body,
which dereferences the pointer.  `Except.error` marks a null-pointer
dereference; `Except.ok none` means the fuel ran out with the loop still
running; `Except.ok (some r)` is normal completion with result `r`. -/
def atohexIter : Nat → Nat → Option (List Char) → Except Unit (Option Nat)
  | 0, _, _ => Except.ok none
  | fuel + 1, result, p =>
    match p with
    | none => Except.ok (some result)
    | some s =>
      match derefChar (some s) with
      | Except.error e => Except.error e
      | Except.ok c =>
        match atohexStep result c with
        | some r => atohexIter fuel r (ptrIncr (some s))
        | none => Except.ok (some result)

/-- Specification-side predicate: the character is one of the hex digits
`0`-`9`, `A`-`F`, `a`-`f` accepted by the loop. -/
def isHexDigitC (c : Char) : Bool :=
  decide (('0' ≤ c ∧ c ≤ '9') ∨ ('A' ≤ c ∧ c ≤ 'F') ∨ ('a' ≤ c ∧ c ≤ 'f'))

/-- Specification-side value of a hex digit, 0-15, matching the three
branches of the loop body. -/
def hexVal (c : Char) : Nat :=
  if '0' ≤ c ∧ c ≤ '9' then c.toNat - '0'.toNat
  else if 'A' ≤ c ∧ c ≤ 'F' then c.toNat - 'A'.toNat + 10
  else if 'a' ≤ c ∧ c ≤ 'f' then c.toNat - 'a'.toNat + 10
  else 0

/-- Exact (unbounded) base-16 fold of the maximal leading hex-digit run of
`s`, starting from accumulator `r`. -/
def hexFoldFrom (r : Nat) (s : List Char) : Nat :=
  (s.takeWhile isHexDigitC).foldl (fun a c => a * 16 + hexVal c) r

/-- Exact base-16 value of the maximal leading hex-digit run of `s`: the
number the specification says the hex accessor computes. -/
def hexLeadVal (s : List Char) : Nat := hexFoldFrom 0 s

/-- Uppercasing of the six lowercase hex letters, identity elsewhere; two
strings with the same image differ only in the case of hex letters. -/
def upperHex (c : Char) : Char :=
  if c = 'a' then 'A' else if c = 'b' then 'B' else if c = 'c' then 'C'
  else if c = 'd' then 'D' else if c = 'e' then 'E' else if c = 'f' then 'F'
  else c

/-- One command-line option descriptor (struct from parser.h, declared
outside the sources; fields as used by nas_parser.c: the option name, the
argument placeholder, the usage text and the current value `pvalue`).  The
value fields are string literals or argv entries, hence never null. -/
structure parser_option_t where
  name : List Char
  argname : List Char
  usage : List Char
  pvalue : List Char

/-- The command-line structure (struct from parser.h): command name,
number of options `nb_options`, and the option descriptors. -/
structure parser_command_line_t where
  name : List Char
  nb_options : Nat
  options : List parser_option_t

/-- Identifiers of the NAS command line options (nas_parser.c lines
56-66), used as fixed indices into the descriptor sequence. -/
def NAS_PARSER_UE_ID : Nat := 0

/-- Index of the logging trace level option. -/
def NAS_PARSER_TRACE_LEVEL : Nat := 1

/-- Index of the user app layer hostname option. -/
def NAS_PARSER_USER_HOST : Nat := 2

/-- Index of the network layer hostname option. -/
def NAS_PARSER_NETWORK_HOST : Nat := 3

/-- Index of the user app layer port number option. -/
def NAS_PARSER_USER_PORT : Nat := 4

/-- Index of the network layer port number option. -/
def NAS_PARSER_NETWORK_PORT : Nat := 5

/-- Index of the device pathname option. -/
def NAS_PARSER_DEVICE_PATH : Nat := 6

/-- Index of the device attribute parameters option. -/
def NAS_PARSER_DEVICE_ATTR : Nat := 7

/-- Number of NAS command line options, the last enumerator. -/
def NAS_PARSER_NB_OPTIONS : Nat := 8

/-- Out-of-range placeholder for list indexing; the static table always
has all eight descriptors, so it is never reached. -/
def dummyOption : parser_option_t := ⟨[], [], [], []⟩

/-- The static NAS command line table (nas_parser.c lines 77-105).
Modelled from the spec: the default constants NAS_PARSER_DEFAULT_UE_ID,
NAS_PARSER_DEFAULT_TRACE_LEVEL, NAS_PARSER_DEFAULT_NETWORK_HOSTNAME,
NAS_PARSER_DEFAULT_USER_PORT_NUMBER and NAS_PARSER_DEFAULT_NETWORK_PORT_NUMBER
come from nas_parser.h, which is not among the sources; the specification
calls them implementation-defined default constants, so the table is
parameterized by them.  The remaining defaults are the literal sentinel
string "NULL" exactly as in the source. -/
def nasParserCommandLine (dUeid dTrace dNhost dUport dNport : List Char) :
    parser_command_line_t :=
  { name := String.toList "NASprocess"
    nb_options := NAS_PARSER_NB_OPTIONS
    options := [
      ⟨String.toList "-ueid", String.toList "<ueid>",
        String.toList "UE identifier\t\t\t", dUeid⟩,
      ⟨String.toList "-trace", String.toList "<mask>",
        String.toList "Logging trace level\t\t", dTrace⟩,
      ⟨String.toList "-uhost", String.toList "<uhost>",
        String.toList "User app layer's hostname\t", String.toList "NULL"⟩,
      ⟨String.toList "-nhost", String.toList "<nhost>",
        String.toList "Network layer's hostname\t", dNhost⟩,
      ⟨String.toList "-uport", String.toList "<uport>",
        String.toList "User app layer's port number\t", dUport⟩,
      ⟨String.toList "-nport", String.toList "<nport>",
        String.toList "Network layer's port number\t", dNport⟩,
      ⟨String.toList "-dev", String.toList "<devpath>",
        String.toList "Device pathname\t\t", String.toList "NULL"⟩,
      ⟨String.toList "-params", String.toList "<params>",
        String.toList "Device attribute parameters", String.toList "NULL"⟩] }

/-- nas_parser_get_nb_options (lines 169-172): returns the nb_options
field of the table. -/
def nas_parser_get_nb_options (cl : parser_command_line_t) : Nat :=
  cl.nb_options

/-- nas_parser_get_trace_level (lines 187-190): atohex of the trace level
descriptor's value (a non-null string, per the table invariant). -/
def nas_parser_get_trace_level (cl : parser_command_line_t) : Int :=
  atohex (some (cl.options.getD NAS_PARSER_TRACE_LEVEL dummyOption).pvalue)

/-- nas_parser_get_network_host (lines 205-208). -/
def nas_parser_get_network_host (cl : parser_command_line_t) : List Char :=
  (cl.options.getD NAS_PARSER_NETWORK_HOST dummyOption).pvalue

/-- nas_parser_get_network_port (lines 223-226). -/
def nas_parser_get_network_port (cl : parser_command_line_t) : List Char :=
  (cl.options.getD NAS_PARSER_NETWORK_PORT dummyOption).pvalue

/-- nas_parser_get_user_host (lines 259-262). -/
def nas_parser_get_user_host (cl : parser_command_line_t) : List Char :=
  (cl.options.getD NAS_PARSER_USER_HOST dummyOption).pvalue

/-- nas_parser_get_user_port (lines 278-281). -/
def nas_parser_get_user_port (cl : parser_command_line_t) : List Char :=
  (cl.options.getD NAS_PARSER_USER_PORT dummyOption).pvalue

/-- nas_parser_get_device_path (lines 296-299). -/
def nas_parser_get_device_path (cl : parser_command_line_t) : List Char :=
  (cl.options.getD NAS_PARSER_DEVICE_PATH dummyOption).pvalue

/-- nas_parser_get_device_params (lines 314-317). -/
def nas_parser_get_device_params (cl : parser_command_line_t) : List Char :=
  (cl.options.getD NAS_PARSER_DEVICE_ATTR dummyOption).pvalue

/-- C-locale white space, as skipped by the C library atoi. -/
def isSpaceC (c : Char) : Bool :=
  c = ' ' || c = '\t' || c = '\n' || c = '\x0b' || c = '\x0c' || c = '\r'

/-- Decimal digit accumulation of the C library atoi. -/
def atoiDigits : Int → List Char → Int
  | r, [] => r
  | r, c :: rest =>
    if '0' ≤ c ∧ c ≤ '9' then
      atoiDigits (r * 10 + ((c.toNat : Int) - ('0'.toNat : Int))) rest
    else r

/-- The C library atoi after white space has been skipped: an optional
sign followed by decimal digits. -/
def atoiAfterSpace : List Char → Int
  | [] => 0
  | c :: rest =>
    if c = '-' then - atoiDigits 0 rest
    else if c = '+' then atoiDigits 0 rest
    else atoiDigits 0 (c :: rest)

/-- Model of the C library atoi (ISO C simplest-conversion semantics,
overflow aside): skip leading white space, read an optional sign, then
decimal digits; no digits at all yields 0. -/
def atoi (s : List Char) : Int :=
  atoiAfterSpace (s.dropWhile isSpaceC)

/-- nas_parser_get_ueid (lines 241-244): atoi of the UE identifier
descriptor's value. -/
def nas_parser_get_ueid (cl : parser_command_line_t) : Int :=
  atoi (cl.options.getD NAS_PARSER_UE_ID dummyOption).pvalue

/-- Update of one descriptor by the parsing engine: a matched argument
string replaces the value, otherwise the value (the default) is kept. -/
def setOptionValue (o : parser_option_t) (v : Option (List Char)) :
    parser_option_t :=
  { name := o.name, argname := o.argname, usage := o.usage,
    pvalue := v.getD o.pvalue }

/-- Modelled from the spec: the external parsing engine parser_get_options
(parser.c, not among the sources) assigns matched argument strings to the
descriptors' value fields and may overwrite the command name with the
invoked program name; it never changes nb_options and never adds or
removes descriptors. -/
def applyParse (cl : parser_command_line_t) (newName : Option (List Char))
    (vals : List (Option (List Char))) : parser_command_line_t :=
  { name := newName.getD cl.name
    nb_options := cl.nb_options
    options :=
      (cl.options.zip (vals ++ List.replicate cl.options.length none)).map
        (fun p => setOptionValue p.1 p.2) }

/-- Modelled from the spec: the reachable states of the NAS table are the
static initial table (with the given implementation-defined defaults) and
everything the parsing engine can turn it into, namely the result of one
applyParse pass. -/
def reachableState (dUeid dTrace dNhost dUport dNport : List Char)
    (t : parser_command_line_t) : Prop :=
  ∃ newName vals,
    t = applyParse (nasParserCommandLine dUeid dTrace dNhost dUport dNport)
      newName vals

theorem atohexLoop_eq_hexFoldFrom_sub (s : List Char) :
    ∀ a b : Nat, a % uint32Mod = b % uint32Mod →
      hexFoldFrom a s % uint32Mod = hexFoldFrom b s % uint32Mod := by
  induction s with
  | nil => intro a b h; simpa [hexFoldFrom] using h
  | cons c t ih =>
    intro a b h
    by_cases hc : isHexDigitC c = true
    · have hstep : (a * 16 + hexVal c) % uint32Mod
          = (b * 16 + hexVal c) % uint32Mod := by
        have : Nat.ModEq uint32Mod a b := h
        exact Nat.ModEq.add_right _ (Nat.ModEq.mul_right 16 this)
      have := ih _ _ hstep
      simpa [hexFoldFrom, List.takeWhile, hc] using this
    · have hc' : isHexDigitC c = false := by
        cases hcv : isHexDigitC c with
        | false => rfl
        | true => exact absurd hcv hc
      simpa [hexFoldFrom, List.takeWhile, hc'] using h

theorem shiftLeft4 (r : Nat) : r <<< 4 = r * 16 := by
  rw [Nat.shiftLeft_eq]

theorem atohexStep_hex (r : Nat) (c : Char) (hc : isHexDigitC c = true) :
    atohexStep r c = some ((r * 16 + hexVal c) % uint32Mod) := by
  rw [isHexDigitC, decide_eq_true_eq] at hc
  by_cases h1 : '0' ≤ c ∧ c ≤ '9'
  · rw [atohexStep, if_pos h1, hexVal, if_pos h1, shiftLeft4]
  · by_cases h2 : 'A' ≤ c ∧ c ≤ 'F'
    · rw [atohexStep, if_neg h1, if_pos h2, hexVal, if_neg h1, if_pos h2,
        shiftLeft4]
    · by_cases h3 : 'a' ≤ c ∧ c ≤ 'f'
      · rw [atohexStep, if_neg h1, if_neg h2, if_pos h3, hexVal, if_neg h1,
          if_neg h2, if_pos h3, shiftLeft4]
      · rcases hc with h | h | h <;> contradiction

theorem atohexStep_notHex (r : Nat) (c : Char) (hc : isHexDigitC c = false) :
    atohexStep r c = none := by
  rw [isHexDigitC, decide_eq_false_iff_not] at hc
  simp only [not_or] at hc
  obtain ⟨hA, hB, hC⟩ := hc
  rw [atohexStep, if_neg hA, if_neg hB, if_neg hC]

theorem atohexLoop_eq (s : List Char) :
    ∀ r : Nat, r < uint32Mod → atohexLoop r s = hexFoldFrom r s % uint32Mod := by
  induction s with
  | nil => intro r hr; simp [atohexLoop, hexFoldFrom, Nat.mod_eq_of_lt hr]
  | cons c t ih =>
    intro r hr
    cases hc : isHexDigitC c with
    | true =>
      have hstep := atohexStep_hex r c hc
      have harg : (r * 16 + hexVal c) % uint32Mod < uint32Mod :=
        Nat.mod_lt _ (by norm_num [uint32Mod])
      calc atohexLoop r (c :: t)
          = atohexLoop ((r * 16 + hexVal c) % uint32Mod) t := by
            simp [atohexLoop, hstep]
        _ = hexFoldFrom ((r * 16 + hexVal c) % uint32Mod) t % uint32Mod :=
            ih _ harg
        _ = hexFoldFrom (r * 16 + hexVal c) t % uint32Mod :=
            atohexLoop_eq_hexFoldFrom_sub t _ _ (Nat.mod_mod_of_dvd _ dvd_rfl)
        _ = hexFoldFrom r (c :: t) % uint32Mod := by
            simp [hexFoldFrom, List.takeWhile, hc]
    | false =>
      have hstep := atohexStep_notHex r c hc
      simp [atohexLoop, hstep, hexFoldFrom, List.takeWhile, hc,
        Nat.mod_eq_of_lt hr]

theorem atohex_some_eq (s : List Char) :
    atohex (some s) = toInt32 (hexLeadVal s % uint32Mod) := by
  show toInt32 (atohexLoop 0 s) = toInt32 (hexLeadVal s % uint32Mod)
  rw [atohexLoop_eq s 0 (by norm_num [uint32Mod])]
  rfl

theorem atohexStep_upperHex (r : Nat) (c : Char) :
    atohexStep r (upperHex c) = atohexStep r c := by
  by_cases h1 : c = 'a'
  · subst h1; rfl
  by_cases h2 : c = 'b'
  · subst h2; rfl
  by_cases h3 : c = 'c'
  · subst h3; rfl
  by_cases h4 : c = 'd'
  · subst h4; rfl
  by_cases h5 : c = 'e'
  · subst h5; rfl
  by_cases h6 : c = 'f'
  · subst h6; rfl
  have hid : upperHex c = c := by
    rw [upperHex, if_neg h1, if_neg h2, if_neg h3, if_neg h4, if_neg h5,
      if_neg h6]
  rw [hid]

theorem atohexLoop_map_upperHex (s : List Char) :
    ∀ r : Nat, atohexLoop r (s.map upperHex) = atohexLoop r s := by
  induction s with
  | nil => intro r; rfl
  | cons c t ih =>
    intro r
    show atohexLoop r (upperHex c :: t.map upperHex) = atohexLoop r (c :: t)
    cases hstep : atohexStep r c with
    | some v =>
      have h2 : atohexStep r (upperHex c) = some v := by
        rw [atohexStep_upperHex, hstep]
      simp [atohexLoop, hstep, h2, ih]
    | none =>
      have h2 : atohexStep r (upperHex c) = none := by
        rw [atohexStep_upperHex, hstep]
      simp [atohexLoop, hstep, h2]

theorem atohexIter_run (s : List Char) :
    ∀ r : Nat,
      atohexIter (s.length + 1) r (some s) =
        Except.ok (some (atohexLoop r s)) := by
  induction s with
  | nil => intro r; rfl
  | cons c t ih =>
    intro r
    show atohexIter (t.length + 1 + 1) r (some (c :: t)) = _
    cases hstep : atohexStep r c with
    | some v =>
      have hL : atohexIter (t.length + 1 + 1) r (some (c :: t))
          = atohexIter (t.length + 1) v (ptrIncr (some (c :: t))) := by
        simp [atohexIter, derefChar, hstep]
      rw [hL]
      show atohexIter (t.length + 1) v (some t) = _
      rw [ih v]
      simp [atohexLoop, hstep]
    | none =>
      simp [atohexIter, derefChar, atohexLoop, hstep]

theorem applyParse_nb_options (cl : parser_command_line_t)
    (nm : Option (List Char)) (vals : List (Option (List Char))) :
    (applyParse cl nm vals).nb_options = cl.nb_options := rfl

theorem applyParse_options_length (cl : parser_command_line_t)
    (nm : Option (List Char)) (vals : List (Option (List Char))) :
    (applyParse cl nm vals).options.length = cl.options.length := by
  simp [applyParse]

theorem nasParser_options_length (d1 d2 d3 d4 d5 : List Char) :
    (nasParserCommandLine d1 d2 d3 d4 d5).options.length = 8 := rfl

/-- Claim C1, counterexample: on "100000000" (nine hex digits) atohex
returns 0, not the base-16 value 4294967296 of the maximal hex prefix, so
the accessor does not return the prefix value for every hex string. -/
theorem c1_counterexample :
    atohex (some (String.toList "100000000")) ≠
      (hexLeadVal (String.toList "100000000") : Int) := by decide

/-- Claim C1 (amended): for every input string whose maximal leading
hex-digit prefix has base-16 value below 2^31, atohex returns exactly that
value, interpreting the maximal leading hex-digit run and stopping at the
first non-hex character; beyond that bound the 32-bit accumulator wraps. -/
theorem c1_hex_accessor_leading_value (s : List Char)
    (h : hexLeadVal s < 2147483648) : atohex (some s) = (hexLeadVal s : Int) := by
  rw [atohex_some_eq]
  have hlt : hexLeadVal s < uint32Mod :=
    lt_trans h (by norm_num [uint32Mod])
  rw [Nat.mod_eq_of_lt hlt, toInt32, if_pos h]

/-- Claim C1, witness: on "1G3" the prefix value is within bounds and
atohex stops at the first invalid character, returning 1. -/
theorem c1_witness :
    hexLeadVal (String.toList "1G3") < 2147483648 ∧
      atohex (some (String.toList "1G3")) = 1 :=
  ⟨by decide, by rw [c1_hex_accessor_leading_value _ (by decide)]; decide⟩

/-- Claim C2, counterexample: running the loop on a null input pointer
returns 0 through the normal condition-false exit, with no null-pointer
dereference (which the model would report as Except.error); the loop
condition tests the pointer itself, not a character read through it. -/
theorem c2_counterexample : atohexIter 1 0 none = Except.ok (some 0) := rfl

/-- Claim C2 (amended): the for-loop condition of atohex tests the pointer
itself against null, so on a null input the loop body never runs, nothing
is dereferenced, and the function safely returns the initial accumulator
0, for any amount of fuel. -/
theorem c2_null_input_safe (fuel : Nat) :
    atohexIter (fuel + 1) 0 none = Except.ok (some 0) ∧ atohex none = 0 :=
  ⟨rfl, rfl⟩

/-- Claim C3: atohex on a null input, on the empty string, or on any
string whose first character is not a valid hex digit returns 0, the
initial value of the accumulator. -/
theorem c3_null_empty_invalid :
    atohex none = 0 ∧ atohex (some []) = 0 ∧
      ∀ (c : Char) (s : List Char), isHexDigitC c = false →
        atohex (some (c :: s)) = 0 := by
  refine ⟨rfl, rfl, ?_⟩
  intro c s hc
  show toInt32 (atohexLoop 0 (c :: s)) = 0
  rw [show atohexLoop 0 (c :: s) = 0 by
    simp [atohexLoop, atohexStep_notHex 0 c hc]]
  rfl

/-- Claim C3, witness: the string "G3" starts with an invalid hex
character and yields 0. -/
theorem c3_witness : atohex (some ('G' :: String.toList "3")) = 0 :=
  c3_null_empty_invalid.2.2 'G' (String.toList "3") (by decide)

/-- Claim C4: atohex performs no overflow checking; for inputs with more
than eight leading hex digits the result is the base-16 value of the
maximal hex prefix reduced modulo 2^32, reinterpreted as a signed 32-bit
value, each loop step computing the accumulator modulo 2^32. -/
theorem c4_wraparound (s : List Char)
    (_h : 8 < (s.takeWhile isHexDigitC).length) :
    atohex (some s) = toInt32 (hexLeadVal s % uint32Mod) :=
  atohex_some_eq s

/-- Claim C4, witness: "100000000" has nine leading hex digits and wraps
to 0 = 4294967296 mod 2^32. -/
theorem c4_witness :
    8 < ((String.toList "100000000").takeWhile isHexDigitC).length ∧
      atohex (some (String.toList "100000000")) =
        toInt32 (hexLeadVal (String.toList "100000000") % uint32Mod) :=
  ⟨by decide, c4_wraparound (String.toList "100000000") (by decide)⟩

/-- Claim C5: atohex is case-insensitive on hex digits: any two strings
that agree after uppercasing the hex letters a-f (so strings differing
only in the case of hex letters) yield the same value; in particular "aB",
"Ab" and "AB" all yield the same value. -/
theorem c5_case_insensitive :
    (∀ s t : List Char, s.map upperHex = t.map upperHex →
        atohex (some s) = atohex (some t)) ∧
      atohex (some (String.toList "aB")) = atohex (some (String.toList "AB")) ∧
      atohex (some (String.toList "Ab")) = atohex (some (String.toList "AB")) := by
  refine ⟨?_, by decide, by decide⟩
  intro s t h
  show toInt32 (atohexLoop 0 s) = toInt32 (atohexLoop 0 t)
  rw [← atohexLoop_map_upperHex s 0, ← atohexLoop_map_upperHex t 0, h]

/-- Claim C5, witness: "aB" and "Ab" have the same uppercased image, hence
the same atohex value. -/
theorem c5_witness :
    atohex (some (String.toList "aB")) = atohex (some (String.toList "Ab")) :=
  c5_case_insensitive.1 (String.toList "aB") (String.toList "Ab") (by decide)

/-- Claim C6: in every reachable state of the table (the static initial
state and anything the parsing engine produces from it), the option-count
query returns the nb_options field, which equals 8, the number of declared
option descriptors. -/
theorem c6_option_count (d1 d2 d3 d4 d5 : List Char)
    (t : parser_command_line_t) (h : reachableState d1 d2 d3 d4 d5 t) :
    nas_parser_get_nb_options t = 8 ∧ t.options.length = 8 := by
  obtain ⟨nm, vals, rfl⟩ := h
  constructor
  · rfl
  · rw [applyParse_options_length, nasParser_options_length]

/-- Claim C6, witness: the table just after a parse pass that matched
nothing still reports 8 options and holds 8 descriptors. -/
theorem c6_witness :
    nas_parser_get_nb_options
        (applyParse (nasParserCommandLine [] [] [] [] []) none []) = 8 ∧
      (applyParse (nasParserCommandLine [] [] [] [] []) none []).options.length
        = 8 :=
  c6_option_count [] [] [] [] [] _ ⟨none, [], rfl⟩

/-- Claim C7: every string accessor returns the value field of its fixed
option descriptor unchanged, and at the unmodified defaults the user-host,
device-path and device-params accessors return exactly the literal
sentinel string "NULL". -/
theorem c7_string_accessors :
    (∀ cl, nas_parser_get_user_host cl =
        (cl.options.getD NAS_PARSER_USER_HOST dummyOption).pvalue) ∧
      (∀ cl, nas_parser_get_network_host cl =
        (cl.options.getD NAS_PARSER_NETWORK_HOST dummyOption).pvalue) ∧
      (∀ cl, nas_parser_get_user_port cl =
        (cl.options.getD NAS_PARSER_USER_PORT dummyOption).pvalue) ∧
      (∀ cl, nas_parser_get_network_port cl =
        (cl.options.getD NAS_PARSER_NETWORK_PORT dummyOption).pvalue) ∧
      (∀ cl, nas_parser_get_device_path cl =
        (cl.options.getD NAS_PARSER_DEVICE_PATH dummyOption).pvalue) ∧
      (∀ cl, nas_parser_get_device_params cl =
        (cl.options.getD NAS_PARSER_DEVICE_ATTR dummyOption).pvalue) ∧
      ∀ d1 d2 d3 d4 d5 : List Char,
        nas_parser_get_user_host (nasParserCommandLine d1 d2 d3 d4 d5) =
            String.toList "NULL" ∧
          nas_parser_get_device_path (nasParserCommandLine d1 d2 d3 d4 d5) =
            String.toList "NULL" ∧
          nas_parser_get_device_params (nasParserCommandLine d1 d2 d3 d4 d5) =
            String.toList "NULL" :=
  ⟨fun _ => rfl, fun _ => rfl, fun _ => rfl, fun _ => rfl, fun _ => rfl,
    fun _ => rfl, fun _ _ _ _ _ => ⟨rfl, rfl, rfl⟩⟩

/-- Claim C8: the UE identifier accessor converts the UE-id descriptor's
value with the standard decimal parse atoi: it returns atoi of that value
in every table state; atoi yields 0 on the empty string and on a leading
character that is neither a digit, white space nor a sign; and at the
unmodified defaults the accessor returns the default string parsed in
base 10. -/
theorem c8_ueid_atoi :
    (∀ cl, nas_parser_get_ueid cl =
        atoi (cl.options.getD NAS_PARSER_UE_ID dummyOption).pvalue) ∧
      atoi [] = 0 ∧
      (∀ (c : Char) (s : List Char), ¬('0' ≤ c ∧ c ≤ '9') →
        isSpaceC c = false → c ≠ '+' → c ≠ '-' → atoi (c :: s) = 0) ∧
      ∀ d1 d2 d3 d4 d5 : List Char,
        nas_parser_get_ueid (nasParserCommandLine d1 d2 d3 d4 d5) = atoi d1 := by
  refine ⟨fun _ => rfl, rfl, ?_, fun _ _ _ _ _ => rfl⟩
  intro c s hdig hsp hplus hminus
  simp [atoi, List.dropWhile, hsp, atoiAfterSpace, hplus, hminus,
    atoiDigits, hdig]

/-- Claim C8, witness: a value string starting with a letter parses to 0. -/
theorem c8_witness : atoi ('x' :: String.toList "12") = 0 :=
  c8_ueid_atoi.2.2.1 'x' (String.toList "12") (by decide) (by decide)
    (by decide) (by decide)

/-- Claim C9: atohex does not recognize C-style 0x prefixes: on any string
beginning with the character 0 followed by x or X, the leading 0
contributes zero and the x stops the scan, so the result is 0. -/
theorem c9_no_0x (s : List Char) :
    atohex (some ('0' :: 'x' :: s)) = 0 ∧
      atohex (some ('0' :: 'X' :: s)) = 0 :=
  ⟨rfl, rfl⟩

/-- Claim C10: for every non-null NUL-terminated input the atohex loop
terminates within length-plus-one iterations, by the break taken at the
first non-hex character (at the latest the NUL terminator), and computes
the value of the scanning loop; moreover the pointer increment keeps the
pointer non-null, so the loop condition itself never becomes false on a
non-null input. -/
theorem c10_loop_terminates (s : List Char) :
    atohexIter (s.length + 1) 0 (some s) =
        Except.ok (some (atohexLoop 0 s)) ∧
      (ptrIncr (some s)).isSome = true :=
  ⟨atohexIter_run s 0, rfl⟩
